import Mathlib

/-!
Shallow embedding of the Overview API client (`src/index.js`), a fluent
JavaScript interface that builds HTTP request descriptors and hands them to a
caller-supplied requester function.

Modelling conventions:
* JavaScript runtime values that flow through the client (ids, bodies, the
  fluent mode field) are embedded as `JSValue`; JS truthiness is `truthy` and
  JS string coercion (as used in string concatenation) is `JSValue.toStr`.
* The requester ("executor") is a function `Request → ρ` for an arbitrary
  result type `ρ`; an absent (`undefined`) requester is `none`.
* Methods of the `API` object are functions taking the receiver; methods that
  can throw return the post-call state of the receiver paired with an
  `Except Err` outcome, so that both the thrown error and any mutation of the
  fluent state are visible.  The source's action methods never assign to the
  receiver's fields, which is why their embeddings return the receiver
  unchanged; the fluent selectors return the updated receiver.
* All thrown errors are `new Error(msg)` in the source; `Err` additionally
  records the kind each throw site has (precondition check, configuration
  check, or the two genuine JS runtime errors that `get()` can raise by
  referencing the undeclared identifier `docId` and by calling the
  non-existent method `this.getAllDocuments`).
-/

/-- A JavaScript runtime value, restricted to the shapes that can reach the
client: `undefined`, `null`, booleans, (integer) numbers, strings and plain
objects. -/
inductive JSValue where
  | undefined
  | null
  | bool (b : Bool)
  | num (n : Int)
  | str (s : String)
  | obj (fields : List (String × JSValue))

/-- JavaScript truthiness, as tested by `if (v)` and `v ? _ : _`. -/
def truthy : JSValue → Bool
  | .undefined => false
  | .null => false
  | .bool b => b
  | .num n => n != 0
  | .str s => s != ""
  | .obj _ => true

/-- JavaScript string coercion as it happens in `"" + v` (the client only ever
concatenates ids into paths; integer numbers render in decimal). -/
def JSValue.toStr : JSValue → String
  | .undefined => "undefined"
  | .null => "null"
  | .bool b => if b then "true" else "false"
  | .num n => toString n
  | .str s => s
  | .obj _ => "[object Object]"

/-- JavaScript strict equality `v === "lit"` against a string literal: only a
string with the same characters compares equal. -/
def JSValue.strictEqStr : JSValue → String → Bool
  | .str s, t => s == t
  | _, _ => false

/-- The errors the client can raise synchronously.  `precondition` and
`configuration` are the two spec error kinds (both plain `new Error(msg)`
throws in the source); `referenceError` and `typeError` are the JS runtime
errors raised by the broken branches of `get()`. -/
inductive Err where
  | precondition (msg : String)
  | configuration (msg : String)
  | referenceError (name : String)
  | typeError (msg : String)
deriving DecidableEq

/-- True exactly for the two spec-classified error kinds (`PreconditionError`
and `ConfigurationError`). -/
def Err.preOrConfig : Err → Bool
  | .precondition _ => true
  | .configuration _ => true
  | _ => false

/-- The base64 alphabet used by `Buffer.toString('base64')`. -/
def base64Alphabet : List Char :=
  "ABCDEFGHIJKLMNOPQRSTUVWXYZabcdefghijklmnopqrstuvwxyz0123456789+/".toList

/-- The base64 digit for a 6-bit value. -/
def base64Digit (n : Nat) : Char := base64Alphabet.getD n '='

/-- Standard base64 of a byte list, three bytes to four digits, `=`-padded. -/
def base64Chunks : List Nat → List Char
  | [] => []
  | [a] => [base64Digit (a / 4), base64Digit (a % 4 * 16), '=', '=']
  | [a, b] =>
    [base64Digit (a / 4), base64Digit (a % 4 * 16 + b / 16),
     base64Digit (b % 16 * 4), '=']
  | a :: b :: c :: rest =>
    base64Digit (a / 4) :: base64Digit (a % 4 * 16 + b / 16) ::
      base64Digit (b % 16 * 4 + c / 64) :: base64Digit (c % 64) ::
        base64Chunks rest

/-- The UTF-8 bytes of a string (what `new Buffer(string)` holds). -/
def strBytes (s : String) : List Nat := s.toUTF8.toList.map (fun b => b.toNat)

/-- Source expression `new Buffer(s).toString('base64')`. -/
def base64 (s : String) : String := String.mk (base64Chunks (strBytes s))

/-- The request descriptor handed to the requester:
`{url, body, method, headers}` (src/index.js line 233). -/
structure Request where
  url : String
  body : JSValue
  method : String
  headers : List (String × String)

/-- The `API` object (src/index.js lines 10-21): connection configuration plus
the mutable fluent state.  `ρ` is the requester's result type. -/
structure API (ρ : Type) where
  host : String
  requester : Option (Request → ρ)
  apiTokenEncoded : String
  mode : JSValue
  docSetId : JSValue
  docId : JSValue
  storeObjectId : JSValue

/-- Constructor `new API(host, apiToken, requester)`: stores the base64 credential once;
the four fluent fields start out `undefined` (the constructor's bare
`this.mode;` statements assign nothing). -/
def API.new (host apiToken : String) (requester : Option (Request → ρ)) : API ρ :=
  { host := host
    requester := requester
    apiTokenEncoded := base64 (apiToken ++ ":x-auth-token")
    mode := .undefined
    docSetId := .undefined
    docId := .undefined
    storeObjectId := .undefined }

/-- Method `docSet(docSetId)` (lines 29-33): sets mode `"doc"` and the doc-set id,
then returns `this`.  It does not touch `docId`. -/
def API.docSet (api : API ρ) (docSetId : JSValue) : API ρ :=
  { api with mode := .str "doc", docSetId := docSetId }

/-- Method `doc(docId)` (lines 41-49): throws before any assignment when `docSetId`
is falsy; otherwise sets mode `"doc"` and the doc id and returns `this`.
The pair is (post-call state, outcome). -/
def API.doc (api : API ρ) (docId : JSValue) : API ρ × Except Err (API ρ) :=
  if truthy api.docSetId = false then
    (api, .error (.precondition
      "You must specify a doc set id before picking out a document."))
  else
    let api' := { api with mode := .str "doc", docId := docId }
    (api', .ok api')

/-- Method `store()` (lines 56-59): sets mode `"store"` and returns `this`.  It does
not touch `storeObjectId`. -/
def API.store (api : API ρ) : API ρ := { api with mode := .str "store" }

/-- Method `object(storeObjectId)` (lines 67-71): sets mode `"store"` and the store
object id, then returns `this`. -/
def API.object (api : API ρ) (storeObjectId : JSValue) : API ρ :=
  { api with mode := .str "store", storeObjectId := storeObjectId }

/-- The message of the missing-requester `ConfigurationError`
(lines 219-222). -/
def configurationMessage : String :=
  "You must provide a requester function when constructing the class or making the request."

/-- Resolution `requester || this.requester` (line 216): the per-call requester argument
when given, else the one from construction. -/
def API.resolveRequester (api : API ρ) (requester : Option (Request → ρ)) :
    Option (Request → ρ) :=
  match requester with
  | some r => some r
  | none => api.requester

/-- The descriptor built by `_request` (lines 225-238): absolute URL
`host + "/api/v1" + path`, the body, `method || "GET"`, and headers holding
`Authorization` always and `Content-Type` exactly when the body is truthy. -/
def API.buildRequest (api : API ρ) (path : String) (method : Option String)
    (body : JSValue) : Request :=
  { url := api.host ++ "/api/v1" ++ path
    body := body
    method :=
      match method with
      | some m => if m == "" then "GET" else m
      | none => "GET"
    headers :=
      ("Authorization", "Basic " ++ api.apiTokenEncoded) ::
        (if truthy body then [("Content-Type", "application/json")] else []) }

/-- Method `_request(path, requester, method, body)` (lines 215-239): resolve the
requester, throw the `ConfigurationError` when none resolves, else invoke the
requester on the built descriptor and return its result verbatim. -/
def API._request (api : API ρ) (path : String)
    (requester : Option (Request → ρ)) (method : Option String)
    (body : JSValue) : Except Err ρ :=
  match api.resolveRequester requester with
  | none => .error (.configuration configurationMessage)
  | some r => .ok (r (api.buildRequest path method body))

/-- Method `getIds(requester)` (lines 79-88). -/
def API.getIds (api : API ρ) (requester : Option (Request → ρ)) :
    API ρ × Except Err ρ :=
  if truthy api.docSetId = false then
    (api, .error (.precondition
      "Must call docSet() with a set id before using this method."))
  else
    (api, api._request
      ("/document-sets/" ++ api.docSetId.toStr ++ "/documents?fields=id")
      requester none .undefined)

/-- The `path` local of `getDocuments` (lines 103-105): `fields` defaults to
`["id","text"]` when falsy (an absent argument is `undefined`), `sort`
contributes `&sort=...` only when truthy (for a string: when non-empty). -/
def documentsPath (docSetId : JSValue) (fields : Option (List String))
    (sort : Option String) : String :=
  let sortParam : String :=
    match sort with
    | some s => if s == "" then "" else "&sort=" ++ s
    | none => ""
  let fieldsParam : String :=
    "&fields=" ++ String.intercalate "," (fields.getD ["id", "text"])
  "/document-sets/" ++ docSetId.toStr ++ "/documents?stream=true" ++
    fieldsParam ++ sortParam

/-- Method `getDocuments(fields, sort, requester)` (lines 98-108). -/
def API.getDocuments (api : API ρ) (fields : Option (List String))
    (sort : Option String) (requester : Option (Request → ρ)) :
    API ρ × Except Err ρ :=
  if truthy api.docSetId = false then
    (api, .error (.precondition
      "Must call docSet() with a set id before using this method."))
  else
    (api, api._request (documentsPath api.docSetId fields sort)
      requester none .undefined)

/-- Method `get(requester)` (lines 117-141).  In `"doc"` mode both branches are
broken in the source: with a truthy `docId` line 122 reads the undeclared
identifier `docId` (not `this.docId`), raising a `ReferenceError`; otherwise
line 127 calls `this.getAllDocuments`, a method that does not exist on the
prototype (the all-documents query is named `getDocuments`), raising a
`TypeError`.  The `"store"` and default branches are as written. -/
def API.get (api : API ρ) (requester : Option (Request → ρ)) :
    API ρ × Except Err ρ :=
  match api.mode with
  | .str "doc" =>
    if truthy api.docId then
      (api, .error (.referenceError "docId is not defined"))
    else
      (api, .error (.typeError "this.getAllDocuments is not a function"))
  | .str "store" =>
    if truthy api.storeObjectId then
      (api, api._request ("/store/objects/" ++ api.storeObjectId.toStr)
        requester none .undefined)
    else
      (api, .error (.precondition
        "Must specify a specific store object to return first"))
  | _ =>
    (api, .error (.precondition
      "Must specify a document set, document, or store object first."))

/-- Method `getState(requester)` (lines 149-155). -/
def API.getState (api : API ρ) (requester : Option (Request → ρ)) :
    API ρ × Except Err ρ :=
  if api.mode.strictEqStr "store" = false then
    (api, .error (.precondition "You must be operating on the store to set state."))
  else
    (api, api._request "/store/state" requester none .undefined)

/-- Method `setState(state, requester)` (lines 163-169). -/
def API.setState (api : API ρ) (state : JSValue)
    (requester : Option (Request → ρ)) : API ρ × Except Err ρ :=
  if api.mode.strictEqStr "store" = false then
    (api, .error (.precondition "You must be operating on the store to set state."))
  else
    (api, api._request "/store/state" requester (some "PUT") state)

/-- Method `getObjects(requester)` (lines 177-183). -/
def API.getObjects (api : API ρ) (requester : Option (Request → ρ)) :
    API ρ × Except Err ρ :=
  if api.mode.strictEqStr "store" = false then
    (api, .error (.precondition "You must be operating on the store to get its objects."))
  else
    (api, api._request "/store/objects" requester none .undefined)

/-- Method `createObject(state, requester)` (lines 191-193): no precondition check
at all — it posts regardless of the current mode. -/
def API.createObject (api : API ρ) (state : JSValue)
    (requester : Option (Request → ρ)) : API ρ × Except Err ρ :=
  (api, api._request "/store/objects" requester (some "POST") state)

/-- Method `updateStoreObject(state, requester)` (lines 201-207). -/
def API.updateStoreObject (api : API ρ) (state : JSValue)
    (requester : Option (Request → ρ)) : API ρ × Except Err ρ :=
  if truthy api.storeObjectId = false then
    (api, .error (.precondition
      "You must specify a store object id before calling this method."))
  else
    (api, api._request ("/store/objects/" ++ api.storeObjectId.toStr)
      requester (some "PUT") state)

/-- A document-mode client with a document selected, used to evaluate `get()`
on the single-document branch. -/
def c1Client : API Nat :=
  (((API.new "https://example.org" "tok" (some (fun _ => 0))).docSet
      (.num 1)).doc (.num 2)).1

/-- A document-mode client with no document selected, used to evaluate `get()`
on the all-documents branch. -/
def c2Client : API Nat :=
  (API.new "https://example.org" "tok" (some (fun _ => 0))).docSet (.num 1)

/-- A client that selected document 9 and then re-selected a document set:
probes whether `docSet` clears the document id. -/
def c3Client : API Unit :=
  ((((API.new "https://example.org" "tok" none).docSet (.num 1)).doc
      (.num 9)).1).docSet (.num 5)

/-- A client that selected store object 3 and then re-entered store mode:
probes whether `store()` clears the store object id. -/
def c4Client : API Unit :=
  ((API.new "https://example.org" "tok" none).object (.num 3)).store

/-- A document-mode client with no requester anywhere. -/
def plainDocClient : API Unit :=
  (API.new "https://example.org" "tok" none).docSet (.num 1)

/-- A freshly constructed client with no requester and no mode. -/
def bareClient : API Unit := API.new "https://example.org" "tok" none

/-- A client whose document-set id itself contains the characters `sort=`;
its requester result type is `Request` so the identity requester can report
the descriptor it received. -/
def oddIdClient : API Request :=
  (API.new "https://example.org" "tok" none).docSet (.str "a&sort=b")

/-- A client with an ordinary string document-set id. -/
def namedSetClient : API Unit :=
  (API.new "https://example.org" "tok" none).docSet (.str "mydocs")

/-- A client whose document-set id was set to the falsy number `0`. -/
def zeroSetClient : API Unit :=
  (API.new "https://example.org" "tok" none).docSet (.num 0)

/-- A client whose store-object id was set to the falsy empty string. -/
def emptyObjClient : API Unit :=
  (API.new "https://example.org" "tok" none).object (.str "")

/-- Whether a method outcome is a failure of the `ConfigurationError` kind. -/
def isConfigFailure : Except Err α → Bool
  | .error (.configuration _) => true
  | _ => false

/-- C1: the spec says that in document mode with both ids set, `get()` fetches
`/document-sets/{documentSetId}/documents/{documentId}` through the executor.
The code instead reads the undeclared identifier `docId` on line 122 and
raises a `ReferenceError` before any request is made: evaluating `get()` on a
client with doc set 1 and document 2 selected yields the `ReferenceError`, for
any per-call requester, and never the descriptor the spec describes. -/
theorem c1_get_document_raises_referenceError :
    c1Client.get (some (fun _ => 0)) =
      (c1Client, .error (.referenceError "docId is not defined")) :=
  rfl

/-- C2: the spec says that in document mode without a selected document,
`get()` delegates to the all-documents query (`getDocuments` with default
arguments).  The code instead calls `this.getAllDocuments`, which does not
exist on the prototype, raising a `TypeError`; the delegation target
`getDocuments(undefined, undefined, requester)` itself succeeds on the same
client. -/
theorem c2_get_all_documents_raises_typeError :
    c2Client.get (some (fun _ => 0)) =
      (c2Client, .error (.typeError "this.getAllDocuments is not a function")) ∧
    (c2Client.getDocuments none none (some (fun _ => 0))).2 = .ok 0 :=
  ⟨rfl, rfl⟩

/-- C3 counterexample: after selecting document 9 and then calling
`docSet(5)`, the document id is still 9 — `selectDocumentSet` does not clear
a previously set `documentId`, contrary to the claim. -/
theorem c3_counterexample :
    c3Client.docId = JSValue.num 9 ∧ c3Client.docId ≠ JSValue.undefined :=
  ⟨rfl, fun h => JSValue.noConfusion h⟩

/-- C3 amended: `docSet(id)` sets mode `"doc"` and `docSetId := id`, and
leaves the previously set `docId` (and `storeObjectId`) unchanged. -/
theorem c3_docSet_sets_mode_and_set_id (api : API ρ) (id : JSValue) :
    (api.docSet id).mode = JSValue.str "doc" ∧
    (api.docSet id).docSetId = id ∧
    (api.docSet id).docId = api.docId ∧
    (api.docSet id).storeObjectId = api.storeObjectId :=
  ⟨rfl, rfl, rfl, rfl⟩

/-- C4 counterexample: after selecting store object 3 and then calling
`store()`, the store object id is still 3 — `selectStore` does not clear a
previously set `storeObjectId`, contrary to the claim. -/
theorem c4_counterexample :
    c4Client.storeObjectId = JSValue.num 3 ∧
    c4Client.storeObjectId ≠ JSValue.undefined :=
  ⟨rfl, fun h => JSValue.noConfusion h⟩

/-- C4 amended: `store()` sets mode `"store"` and leaves `storeObjectId`
(and the document ids) unchanged. -/
theorem c4_store_sets_mode (api : API ρ) :
    api.store.mode = JSValue.str "store" ∧
    api.store.storeObjectId = api.storeObjectId ∧
    api.store.docSetId = api.docSetId ∧
    api.store.docId = api.docId :=
  ⟨rfl, rfl, rfl, rfl⟩

/-- C5: every descriptor `_request` hands to the executor (every action goes
through `_request`, and the executor is applied exactly to
`buildRequest`'s result) carries an `Authorization` header equal to
`"Basic " ++ base64(apiToken ++ ":x-auth-token")`, whatever the mode, path,
method or action; and it carries a `Content-Type: application/json` header
exactly when the body is non-empty, i.e. truthy — the `if (body)` test the
code performs (an absent body is `undefined`, which is falsy). -/
theorem c5_headers_authorization_and_content_type (host token : String)
    (rq : Option (Request → ρ)) (path : String) (method : Option String)
    (body : JSValue) :
    (∀ f : Request → ρ,
      (API.new host token rq)._request path (some f) method body =
        .ok (f ((API.new host token rq).buildRequest path method body))) ∧
    ("Authorization", "Basic " ++ base64 (token ++ ":x-auth-token")) ∈
      ((API.new host token rq).buildRequest path method body).headers ∧
    ((("Content-Type", "application/json") ∈
        ((API.new host token rq).buildRequest path method body).headers) ↔
      truthy body = true) := by
  refine ⟨fun f => rfl, ?_, ?_⟩
  · simp [API.buildRequest, API.new]
  · cases h : truthy body <;> simp [API.buildRequest, API.new, h]

/-- C9: `createObject(state)` has no mode precondition: for a client in any
addressing state whatsoever it invokes the executor with a `POST` to
`/store/objects` carrying `state` as the body, and returns the executor's
result. -/
theorem c9_createObject_posts_without_mode_check (api : API ρ)
    (state : JSValue) (f : Request → ρ) :
    api.createObject state (some f) =
      (api, .ok (f (api.buildRequest "/store/objects" (some "POST") state))) ∧
    (api.buildRequest "/store/objects" (some "POST") state).method = "POST" ∧
    (api.buildRequest "/store/objects" (some "POST") state).url =
      api.host ++ "/api/v1" ++ "/store/objects" ∧
    (api.buildRequest "/store/objects" (some "POST") state).body = state :=
  ⟨rfl, rfl, rfl, rfl⟩

/-- C10: every identifier precondition is a truthiness check: on a client
whose `docSetId` is falsy (for instance set to `0` or `""`), `doc`, `getIds`
and `getDocuments` throw exactly the missing-selection `PreconditionError`
they throw when no id was ever selected, and likewise `updateStoreObject` on
a client whose `storeObjectId` is falsy. -/
theorem c10_falsy_ids_behave_as_unset (api api2 : API ρ) (d st2 : JSValue)
    (fields : Option (List String)) (sort : Option String)
    (rq rq2 rq4 : Option (Request → ρ))
    (h : truthy api.docSetId = false)
    (h2 : truthy api2.storeObjectId = false) :
    api.doc d = (api, .error (.precondition
      "You must specify a doc set id before picking out a document.")) ∧
    api.getIds rq = (api, .error (.precondition
      "Must call docSet() with a set id before using this method.")) ∧
    api.getDocuments fields sort rq2 = (api, .error (.precondition
      "Must call docSet() with a set id before using this method.")) ∧
    (api.doc d).2 = ({ api with docSetId := JSValue.undefined }.doc d).2 ∧
    api2.updateStoreObject st2 rq4 = (api2, .error (.precondition
      "You must specify a store object id before calling this method.")) ∧
    (api2.updateStoreObject st2 rq4).2 =
      ({ api2 with storeObjectId := JSValue.undefined
        }.updateStoreObject st2 rq4).2 := by
  have hu : truthy JSValue.undefined = false := rfl
  simp [API.doc, API.getIds, API.getDocuments, API.updateStoreObject, h, h2, hu]

/-- C10 witness: a client whose doc-set id is the falsy `0` gets the
missing-doc-set error from `getIds`, and a client whose store-object id is
the falsy `""` gets the missing-store-object error from
`updateStoreObject`. -/
theorem c10_witness :
    zeroSetClient.getIds none = (zeroSetClient, .error (.precondition
      "Must call docSet() with a set id before using this method.")) ∧
    emptyObjClient.updateStoreObject (JSValue.num 1) none =
      (emptyObjClient, .error (.precondition
        "You must specify a store object id before calling this method.")) :=
  ⟨(c10_falsy_ids_behave_as_unset zeroSetClient emptyObjClient (.num 1)
      (.num 1) none none none none none rfl rfl).2.1,
   (c10_falsy_ids_behave_as_unset zeroSetClient emptyObjClient (.num 1)
      (.num 1) none none none none none rfl rfl).2.2.2.2.1⟩

/-- C7 counterexample: a freshly constructed client with no default executor
and no per-call executor still fails `getState()` with the mode
`PreconditionError`, not with a `ConfigurationError` — the precondition
checks run before the executor check, so the claim as stated (every action
with no executor fails with `ConfigurationError`) is false. -/
theorem c7_counterexample :
    bareClient.requester = none ∧
    (bareClient.getState none).2 = .error (.precondition
      "You must be operating on the store to set state.") ∧
    isConfigFailure (bareClient.getState none).2 = false :=
  ⟨rfl, rfl, rfl⟩

/-- When neither a per-call nor a default requester exists, `_request` fails
with the `ConfigurationError` (and there is no requester it could invoke). -/
theorem requestNone_config (api : API ρ) (path : String)
    (method : Option String) (body : JSValue) (h : api.requester = none) :
    api._request path none method body =
      .error (.configuration configurationMessage) := by
  simp [API._request, API.resolveRequester, h]

/-- C7 amended: for every action, if no executor resolves — none supplied
per-call and none at construction — and the action's own precondition checks
pass (so the call reaches the executor-resolution step at all), the call
fails with the `ConfigurationError`; with no resolvable executor there is
nothing to invoke.  (As stated the claim is false: when an action's
precondition also fails, the `PreconditionError` wins — see the
counterexample.) -/
theorem c7_no_executor_configuration_error (api : API ρ) (st st2 st3 : JSValue)
    (fields : Option (List String)) (sort : Option String)
    (h : api.requester = none) :
    (truthy api.docSetId = true →
      (api.getIds none).2 = .error (.configuration configurationMessage)) ∧
    (truthy api.docSetId = true →
      (api.getDocuments fields sort none).2 =
        .error (.configuration configurationMessage)) ∧
    (api.mode = JSValue.str "store" → truthy api.storeObjectId = true →
      (api.get none).2 = .error (.configuration configurationMessage)) ∧
    (api.mode.strictEqStr "store" = true →
      (api.getState none).2 = .error (.configuration configurationMessage)) ∧
    (api.mode.strictEqStr "store" = true →
      (api.setState st none).2 = .error (.configuration configurationMessage)) ∧
    (api.mode.strictEqStr "store" = true →
      (api.getObjects none).2 = .error (.configuration configurationMessage)) ∧
    (api.createObject st2 none).2 =
      .error (.configuration configurationMessage) ∧
    (truthy api.storeObjectId = true →
      (api.updateStoreObject st3 none).2 =
        .error (.configuration configurationMessage)) := by
  refine ⟨fun h1 => ?_, fun h1 => ?_, fun hm h1 => ?_, fun h1 => ?_,
    fun h1 => ?_, fun h1 => ?_, ?_, fun h1 => ?_⟩
  · simp [API.getIds, h1, requestNone_config _ _ _ _ h]
  · simp [API.getDocuments, h1, requestNone_config _ _ _ _ h]
  · simp [API.get, hm, h1, requestNone_config _ _ _ _ h]
  · simp [API.getState, h1, requestNone_config _ _ _ _ h]
  · simp [API.setState, h1, requestNone_config _ _ _ _ h]
  · simp [API.getObjects, h1, requestNone_config _ _ _ _ h]
  · simp [API.createObject, requestNone_config _ _ _ _ h]
  · simp [API.updateStoreObject, h1, requestNone_config _ _ _ _ h]

/-- C7 witness: on a fresh client with no requester anywhere, `createObject`
(whose precondition is vacuous) fails with the `ConfigurationError`. -/
theorem c7_witness :
    (bareClient.createObject (JSValue.num 1) none).2 =
      .error (.configuration configurationMessage) :=
  (c7_no_executor_configuration_error bareClient (.num 1) (.num 1) (.num 1)
    none none rfl).2.2.2.2.2.2.1

/-- Inversion for `_request` failures: the only error `_request` itself can
produce is the `ConfigurationError`, and it occurs exactly when neither a
per-call nor a default requester was supplied. -/
theorem requestError_inv (api : API ρ) (path : String)
    (rq : Option (Request → ρ)) (method : Option String) (body : JSValue)
    (e : Err) (h : api._request path rq method body = .error e) :
    e = .configuration configurationMessage ∧ rq = none ∧
      api.requester = none := by
  cases rq with
  | some r => simp [API._request, API.resolveRequester] at h
  | none =>
    cases hr : api.requester with
    | some r => simp [API._request, API.resolveRequester, hr] at h
    | none =>
      simp [API._request, API.resolveRequester, hr] at h
      exact ⟨h.symm, rfl, rfl⟩

/-- C6: every `PreconditionError` or `ConfigurationError` is raised
synchronously before any network call.  For each method: if the call fails
with an error of one of those kinds, the post-call state equals the pre-call
state (no mode or id field changed); a `PreconditionError` outcome does not
depend on the requester argument at all (the same error results for every
requester, so no requester is invoked); and a `ConfigurationError` outcome
happens exactly when no requester was resolvable — there was nothing to
invoke. -/
theorem c6_errors_precede_network (api : API ρ) (d st st2 st3 : JSValue)
    (fields : Option (List String)) (sort : Option String) :
    (∀ s e, api.doc d = (s, .error e) → s = api ∧ e.preOrConfig = true) ∧
    (∀ rq s e, api.getIds rq = (s, .error e) → e.preOrConfig = true →
      s = api ∧
      (∀ m, e = .precondition m → ∀ rq2, api.getIds rq2 = (api, .error e)) ∧
      (∀ m, e = .configuration m → rq = none ∧ api.requester = none)) ∧
    (∀ rq s e, api.getDocuments fields sort rq = (s, .error e) →
      e.preOrConfig = true →
      s = api ∧
      (∀ m, e = .precondition m →
        ∀ rq2, api.getDocuments fields sort rq2 = (api, .error e)) ∧
      (∀ m, e = .configuration m → rq = none ∧ api.requester = none)) ∧
    (∀ rq s e, api.get rq = (s, .error e) → e.preOrConfig = true →
      s = api ∧
      (∀ m, e = .precondition m → ∀ rq2, api.get rq2 = (api, .error e)) ∧
      (∀ m, e = .configuration m → rq = none ∧ api.requester = none)) ∧
    (∀ rq s e, api.getState rq = (s, .error e) → e.preOrConfig = true →
      s = api ∧
      (∀ m, e = .precondition m → ∀ rq2, api.getState rq2 = (api, .error e)) ∧
      (∀ m, e = .configuration m → rq = none ∧ api.requester = none)) ∧
    (∀ rq s e, api.setState st rq = (s, .error e) → e.preOrConfig = true →
      s = api ∧
      (∀ m, e = .precondition m →
        ∀ rq2, api.setState st rq2 = (api, .error e)) ∧
      (∀ m, e = .configuration m → rq = none ∧ api.requester = none)) ∧
    (∀ rq s e, api.getObjects rq = (s, .error e) → e.preOrConfig = true →
      s = api ∧
      (∀ m, e = .precondition m →
        ∀ rq2, api.getObjects rq2 = (api, .error e)) ∧
      (∀ m, e = .configuration m → rq = none ∧ api.requester = none)) ∧
    (∀ rq s e, api.createObject st2 rq = (s, .error e) → e.preOrConfig = true →
      s = api ∧
      (∀ m, e = .precondition m →
        ∀ rq2, api.createObject st2 rq2 = (api, .error e)) ∧
      (∀ m, e = .configuration m → rq = none ∧ api.requester = none)) ∧
    (∀ rq s e, api.updateStoreObject st3 rq = (s, .error e) →
      e.preOrConfig = true →
      s = api ∧
      (∀ m, e = .precondition m →
        ∀ rq2, api.updateStoreObject st3 rq2 = (api, .error e)) ∧
      (∀ m, e = .configuration m → rq = none ∧ api.requester = none)) := by
  refine ⟨?_, ?_, ?_, ?_, ?_, ?_, ?_, ?_, ?_⟩
  · intro s e h
    unfold API.doc at h
    split at h
    · rw [Prod.mk.injEq] at h
      obtain ⟨hs, he⟩ := h
      injection he with he
      exact ⟨hs.symm, by rw [← he]; rfl⟩
    · rw [Prod.mk.injEq] at h
      exact absurd h.2 (fun hh => Except.noConfusion hh)
  · intro rq s e h hk
    unfold API.getIds at h
    split at h
    · rename_i hc
      rw [Prod.mk.injEq] at h
      obtain ⟨hs, he⟩ := h
      injection he with he
      refine ⟨hs.symm, fun m hm rq2 => ?_, fun m hm => ?_⟩
      · unfold API.getIds
        rw [if_pos hc, he]
      · rw [← he] at hm; exact Err.noConfusion hm
    · rw [Prod.mk.injEq] at h
      obtain ⟨hs, he⟩ := h
      obtain ⟨hcfg, hrq, hreq⟩ := requestError_inv _ _ _ _ _ _ he
      refine ⟨hs.symm, fun m hm => ?_, fun m hm => ⟨hrq, hreq⟩⟩
      rw [hcfg] at hm; exact Err.noConfusion hm
  · intro rq s e h hk
    unfold API.getDocuments at h
    split at h
    · rename_i hc
      rw [Prod.mk.injEq] at h
      obtain ⟨hs, he⟩ := h
      injection he with he
      refine ⟨hs.symm, fun m hm rq2 => ?_, fun m hm => ?_⟩
      · unfold API.getDocuments
        rw [if_pos hc, he]
      · rw [← he] at hm; exact Err.noConfusion hm
    · rw [Prod.mk.injEq] at h
      obtain ⟨hs, he⟩ := h
      obtain ⟨hcfg, hrq, hreq⟩ := requestError_inv _ _ _ _ _ _ he
      refine ⟨hs.symm, fun m hm => ?_, fun m hm => ⟨hrq, hreq⟩⟩
      rw [hcfg] at hm; exact Err.noConfusion hm
  · intro rq s e h hk
    unfold API.get at h
    split at h
    · split at h
      · rw [Prod.mk.injEq] at h
        injection h.2 with he
        rw [← he] at hk
        exact absurd hk (by simp [Err.preOrConfig])
      · rw [Prod.mk.injEq] at h
        injection h.2 with he
        rw [← he] at hk
        exact absurd hk (by simp [Err.preOrConfig])
    · rename_i hmode
      split at h
      · rw [Prod.mk.injEq] at h
        obtain ⟨hs, he⟩ := h
        obtain ⟨hcfg, hrq, hreq⟩ := requestError_inv _ _ _ _ _ _ he
        refine ⟨hs.symm, fun m hm => ?_, fun m hm => ⟨hrq, hreq⟩⟩
        rw [hcfg] at hm; exact Err.noConfusion hm
      · rename_i hobj
        rw [Prod.mk.injEq] at h
        obtain ⟨hs, he⟩ := h
        injection he with he
        refine ⟨hs.symm, fun m hm rq2 => ?_, fun m hm => ?_⟩
        · unfold API.get
          split
          · rename_i hd
            rw [hmode] at hd
            injection hd with hss
            exact absurd hss (by decide)
          · rw [if_neg hobj, he]
          · rename_i j1 j2
            exact absurd hmode j2
        · rw [← he] at hm; exact Err.noConfusion hm
    · rename_i j1 j2
      rw [Prod.mk.injEq] at h
      obtain ⟨hs, he⟩ := h
      injection he with he
      refine ⟨hs.symm, fun m hm rq2 => ?_, fun m hm => ?_⟩
      · unfold API.get
        split
        · rename_i hd; exact absurd hd j1
        · rename_i hd; exact absurd hd j2
        · rw [he]
      · rw [← he] at hm; exact Err.noConfusion hm
  · intro rq s e h hk
    unfold API.getState at h
    split at h
    · rename_i hc
      rw [Prod.mk.injEq] at h
      obtain ⟨hs, he⟩ := h
      injection he with he
      refine ⟨hs.symm, fun m hm rq2 => ?_, fun m hm => ?_⟩
      · unfold API.getState
        rw [if_pos hc, he]
      · rw [← he] at hm; exact Err.noConfusion hm
    · rw [Prod.mk.injEq] at h
      obtain ⟨hs, he⟩ := h
      obtain ⟨hcfg, hrq, hreq⟩ := requestError_inv _ _ _ _ _ _ he
      refine ⟨hs.symm, fun m hm => ?_, fun m hm => ⟨hrq, hreq⟩⟩
      rw [hcfg] at hm; exact Err.noConfusion hm
  · intro rq s e h hk
    unfold API.setState at h
    split at h
    · rename_i hc
      rw [Prod.mk.injEq] at h
      obtain ⟨hs, he⟩ := h
      injection he with he
      refine ⟨hs.symm, fun m hm rq2 => ?_, fun m hm => ?_⟩
      · unfold API.setState
        rw [if_pos hc, he]
      · rw [← he] at hm; exact Err.noConfusion hm
    · rw [Prod.mk.injEq] at h
      obtain ⟨hs, he⟩ := h
      obtain ⟨hcfg, hrq, hreq⟩ := requestError_inv _ _ _ _ _ _ he
      refine ⟨hs.symm, fun m hm => ?_, fun m hm => ⟨hrq, hreq⟩⟩
      rw [hcfg] at hm; exact Err.noConfusion hm
  · intro rq s e h hk
    unfold API.getObjects at h
    split at h
    · rename_i hc
      rw [Prod.mk.injEq] at h
      obtain ⟨hs, he⟩ := h
      injection he with he
      refine ⟨hs.symm, fun m hm rq2 => ?_, fun m hm => ?_⟩
      · unfold API.getObjects
        rw [if_pos hc, he]
      · rw [← he] at hm; exact Err.noConfusion hm
    · rw [Prod.mk.injEq] at h
      obtain ⟨hs, he⟩ := h
      obtain ⟨hcfg, hrq, hreq⟩ := requestError_inv _ _ _ _ _ _ he
      refine ⟨hs.symm, fun m hm => ?_, fun m hm => ⟨hrq, hreq⟩⟩
      rw [hcfg] at hm; exact Err.noConfusion hm
  · intro rq s e h hk
    unfold API.createObject at h
    rw [Prod.mk.injEq] at h
    obtain ⟨hs, he⟩ := h
    obtain ⟨hcfg, hrq, hreq⟩ := requestError_inv _ _ _ _ _ _ he
    refine ⟨hs.symm, fun m hm => ?_, fun m hm => ⟨hrq, hreq⟩⟩
    rw [hcfg] at hm; exact Err.noConfusion hm
  · intro rq s e h hk
    unfold API.updateStoreObject at h
    split at h
    · rename_i hc
      rw [Prod.mk.injEq] at h
      obtain ⟨hs, he⟩ := h
      injection he with he
      refine ⟨hs.symm, fun m hm rq2 => ?_, fun m hm => ?_⟩
      · unfold API.updateStoreObject
        rw [if_pos hc, he]
      · rw [← he] at hm; exact Err.noConfusion hm
    · rw [Prod.mk.injEq] at h
      obtain ⟨hs, he⟩ := h
      obtain ⟨hcfg, hrq, hreq⟩ := requestError_inv _ _ _ _ _ _ he
      refine ⟨hs.symm, fun m hm => ?_, fun m hm => ⟨hrq, hreq⟩⟩
      rw [hcfg] at hm; exact Err.noConfusion hm

/-- C6 witness: on a document-mode client, `getState` fails with the mode
`PreconditionError`, and it fails identically whatever requester is passed —
even a live one — so no network call can have happened. -/
theorem c6_witness :
    plainDocClient.getState (some (fun _ => ())) =
      (plainDocClient, .error (.precondition
        "You must be operating on the store to set state.")) :=
  ((c6_errors_precede_network plainDocClient (.num 1) (.num 1) (.num 1)
      (.num 1) none none).2.2.2.2.1 none plainDocClient
      (.precondition "You must be operating on the store to set state.")
      rfl rfl).2.1 _ rfl (some (fun _ => ()))

/-- An occurrence inside the right part of an append is an occurrence in the
whole. -/
theorem occ_append_right {α : Type} (a : List α) {pat b : List α}
    (h : pat <:+: b) : pat <:+: a ++ b := by
  obtain ⟨u, v, huv⟩ := h
  exact ⟨a ++ u, v, by rw [← huv]; simp [List.append_assoc]⟩

/-- Any occurrence of `pat` in `a ++ b` lies inside `a`, lies inside `b`, or
straddles the junction, in which case a nonempty proper prefix of `pat` is a
suffix of `a` and the matching remainder of `pat` is a prefix of `b`. -/
theorem occ_split {α : Type} {pat a b : List α} (h : pat <:+: a ++ b) :
    pat <:+: a ∨ pat <:+: b ∨
      ∃ k, 0 < k ∧ k < pat.length ∧ pat.take k <:+ a ∧ pat.drop k <+: b := by
  obtain ⟨u, v, huv⟩ := h
  have hra : (a ++ b).take a.length = a := by
    rw [List.take_append_eq_append_take, List.take_length, Nat.sub_self,
      List.take_zero, List.append_nil]
  have hrb : (a ++ b).drop a.length = b := by
    rw [List.drop_append_eq_append_drop, List.drop_length, Nat.sub_self,
      List.drop_zero, List.nil_append]
  by_cases hin : u.length + pat.length ≤ a.length
  · left
    have h2 := congrArg (List.take a.length) huv
    rw [hra, List.take_append_eq_append_take, List.take_append_eq_append_take,
      List.take_of_length_le (by omega : u.length ≤ a.length),
      List.take_of_length_le (by omega : pat.length ≤ a.length - u.length)]
      at h2
    exact ⟨u, _, h2⟩
  by_cases hout : a.length ≤ u.length
  · right; left
    have h3 := congrArg (List.drop a.length) huv
    rw [hrb, List.drop_append_eq_append_drop, List.drop_append_eq_append_drop,
      (by omega : a.length - u.length = 0), List.drop_zero,
      (by simp only [List.length_append]; omega :
        a.length - (u ++ pat).length = 0), List.drop_zero] at h3
    exact ⟨u.drop a.length, v, h3⟩
  · right; right
    refine ⟨a.length - u.length, by omega, by omega, ?_, ?_⟩
    · have h2 := congrArg (List.take a.length) huv
      rw [hra, List.take_append_eq_append_take, List.take_append_eq_append_take,
        List.take_of_length_le (by omega : u.length ≤ a.length),
        (by simp only [List.length_append]; omega :
          a.length - (u ++ pat).length = 0), List.take_zero,
        List.append_nil] at h2
      exact ⟨u, h2⟩
    · have h3 := congrArg (List.drop a.length) huv
      rw [hrb, List.drop_append_eq_append_drop, List.drop_append_eq_append_drop,
        List.drop_of_length_le (by omega : u.length ≤ a.length),
        List.nil_append,
        (by simp only [List.length_append]; omega :
          a.length - (u ++ pat).length = 0), List.drop_zero] at h3
      exact ⟨v, h3⟩

/-- The characters of the default all-documents path: the fixed prefix, the
id rendered as a string, and the fixed query tail (no sort parameter). -/
theorem documentsPathDefault_toList (id : JSValue) :
    (documentsPath id none none).toList =
      "/document-sets/".toList ++ id.toStr.toList ++
        "/documents?stream=true&fields=id,text".toList := by
  simp only [documentsPath, Option.getD, String.toList, String.data_append,
    List.append_assoc]
  congr 1

/-- The characters of the all-documents path for fields `["a","b"]` and sort
`"date"`. -/
theorem documentsPathCustom_toList (id : JSValue) :
    (documentsPath id (some ["a", "b"]) (some "date")).toList =
      "/document-sets/".toList ++ id.toStr.toList ++
        "/documents?stream=true&fields=a,b&sort=date".toList := by
  simp only [documentsPath, Option.getD, String.toList, String.data_append,
    List.append_assoc]
  congr 1

/-- C8 counterexample: the claim quantifies over every client with a document
set selected, but a client whose document-set id itself contains the
characters `sort=` (ids are spliced into the path verbatim; the repository's
own test selects the string id `"my-docs"`) makes `getDocuments()` with no
arguments produce a path that does contain `sort=`.  The identity requester
returns the descriptor, whose path is the all-documents path for that id. -/
theorem c8_counterexample :
    (oddIdClient.getDocuments none none (some (fun r => r))).2 =
      .ok (oddIdClient.buildRequest
        (documentsPath (JSValue.str "a&sort=b") none none) none .undefined) ∧
    "sort=".toList <:+:
      (documentsPath (JSValue.str "a&sort=b") none none).toList :=
  ⟨rfl, by decide⟩

/-- C8 amended: for every client whose document-set id is truthy and whose
string form does not itself contain `sort=`, `getDocuments()` with no
arguments hands the executor the default all-documents path, which contains
`stream=true` and `fields=id,text` and no `sort=` segment; and
`getDocuments(["a","b"], "date")` hands it a path containing `fields=a,b`
and `&sort=date`. -/
theorem c8_getDocuments_paths (api : API ρ)
    (h1 : truthy api.docSetId = true)
    (h2 : ¬ ("sort=".toList <:+: api.docSetId.toStr.toList)) :
    (∀ f : Request → ρ, (api.getDocuments none none (some f)).2 =
      .ok (f (api.buildRequest (documentsPath api.docSetId none none)
        none .undefined))) ∧
    "stream=true".toList <:+: (documentsPath api.docSetId none none).toList ∧
    "fields=id,text".toList <:+:
      (documentsPath api.docSetId none none).toList ∧
    ¬ ("sort=".toList <:+: (documentsPath api.docSetId none none).toList) ∧
    (∀ f : Request → ρ,
      (api.getDocuments (some ["a", "b"]) (some "date") (some f)).2 =
        .ok (f (api.buildRequest
          (documentsPath api.docSetId (some ["a", "b"]) (some "date"))
          none .undefined))) ∧
    "fields=a,b".toList <:+:
      (documentsPath api.docSetId (some ["a", "b"]) (some "date")).toList ∧
    "&sort=date".toList <:+:
      (documentsPath api.docSetId (some ["a", "b"]) (some "date")).toList := by
  refine ⟨?_, ?_, ?_, ?_, ?_, ?_, ?_⟩
  · intro f
    simp [API.getDocuments, h1, API._request, API.resolveRequester]
  · rw [documentsPathDefault_toList]
    exact occ_append_right _ (by decide)
  · rw [documentsPathDefault_toList]
    exact occ_append_right _ (by decide)
  · rw [documentsPathDefault_toList]
    intro hocc
    rcases occ_split hocc with hPI | hS | ⟨k, hk0, hk5, hsufPI, hpreS⟩
    · rcases occ_split hPI with hP | hI | ⟨k, hk0, hk5, hsufP, hpreI⟩
      · exact absurd hP (by decide)
      · exact h2 hI
      · rw [(by decide : ("sort=".toList).length = 5)] at hk5
        interval_cases k <;> exact absurd hsufP (by decide)
    · exact absurd hS (by decide)
    · rw [(by decide : ("sort=".toList).length = 5)] at hk5
      interval_cases k <;> exact absurd hpreS (by decide)
  · intro f
    simp [API.getDocuments, h1, API._request, API.resolveRequester]
  · rw [documentsPathCustom_toList]
    exact occ_append_right _ (by decide)
  · rw [documentsPathCustom_toList]
    exact occ_append_right _ (by decide)

/-- C8 witness: a concrete client with the string document-set id `"mydocs"`
satisfies the amended hypotheses, and its default all-documents path has no
`sort=` segment. -/
theorem c8_witness :
    ¬ ("sort=".toList <:+:
      (documentsPath namedSetClient.docSetId none none).toList) :=
  (c8_getDocuments_paths namedSetClient (by decide) (by decide)).2.2.2.1
